import Mathlib

/-!
Verification of the sync/auth core of the WordPress product-sheet add-on
(`src/Code.js`, final version of the add-on: the token codec, the deletion
tracker and the catalog sync engine).

Modelling conventions for the shallow embedding:

* A JavaScript string is modelled as a `List Nat` of its UTF-16 code units
  (`charCodeAt` values, each `< 65536`).  Human-readable strings that are
  only compared for equality (error messages, product ids, cell contents)
  are modelled as Lean `String`s.
* `Utilities.base64Encode` on a string first converts it to UTF-8 bytes and
  base64-encodes those; `Utilities.base64Decode` plus
  `newBlob(...).getDataAsString()` performs the inverse.  Both are modelled
  concretely below (`utf8Encode`, `base64EncodeChunks`, `base64Decode`,
  `utf8DecodeLenient`).  The lenient decoder emits the replacement
  character 65533 on malformed byte sequences, as the platform decoder
  does, instead of failing.
* JavaScript exceptions are modelled with `Except String`; a `try/catch`
  wrapper is a `match` on the body's result.  `error.toString()` prefixes
  the error class name to the message; that constant prefix is elided, the
  caught value is the thrown message itself.
* `charCodeAt` on an out-of-range index yields `NaN`, and `NaN` behaves as
  `0` inside the bitwise xor; `List.getD _ _ 0` reproduces this.
  `String.fromCharCode` truncates to 16 bits (`% 65536`).
-/

namespace SheetAddon

/-- One step of the xor key stream, starting at index `i`
(`data.charCodeAt(i) ^ secretKey.charCodeAt(i % keyLength)` followed by
`String.fromCharCode`, which truncates to 16 bits). With an empty key,
`i % 0` is `NaN` in JavaScript, `charCodeAt(NaN)` is `NaN`, and xor with
`NaN` is xor with `0`; `List.getD (i % 0) 0 = 0` models exactly that. -/
def xorWithKeyAux (key : List Nat) : Nat → List Nat → List Nat
  | _, [] => []
  | i, c :: cs =>
      (c ^^^ key.getD (i % key.length) 0) % 65536 :: xorWithKeyAux key (i + 1) cs

/-- The xor loop shared by `xorEncrypt` and `xorDecrypt` (src/Code.js
lines 923-930 and 980-989): index runs from 0 over the data. -/
def xorWithKey (data key : List Nat) : List Nat :=
  xorWithKeyAux key 0 data

/-- UTF-8 encoding of one UTF-16 code unit (< 65536): 1 to 3 bytes. -/
def utf8EncodeChar (c : Nat) : List Nat :=
  if c < 128 then [c]
  else if c < 2048 then [192 + c / 64, 128 + c % 64]
  else [224 + c / 4096, 128 + c / 64 % 64, 128 + c % 64]

/-- UTF-8 encoding of a code-unit sequence (the string-to-bytes conversion
performed by `Utilities.base64Encode` when given a string). -/
def utf8Encode : List Nat → List Nat
  | [] => []
  | c :: cs => utf8EncodeChar c ++ utf8Encode cs

/-- One UTF-8 decoding step: the decoded code unit and the remaining
bytes.  Malformed sequences yield the replacement character 65533, as the
platform decoder substitutes rather than throws. -/
def utf8Step (b0 : Nat) (rest : List Nat) : Nat × List Nat :=
  if b0 < 128 then (b0, rest)
  else if b0 < 192 then (65533, rest)
  else if b0 < 224 then
    match rest with
    | [] => (65533, [])
    | b1 :: rest2 =>
        if 128 ≤ b1 ∧ b1 < 192 then ((b0 - 192) * 64 + (b1 - 128), rest2)
        else (65533, rest2)
  else if b0 < 240 then
    match rest with
    | [] => (65533, [])
    | [_] => (65533, [])
    | b1 :: b2 :: rest3 =>
        if 128 ≤ b1 ∧ b1 < 192 ∧ 128 ≤ b2 ∧ b2 < 192 then
          ((b0 - 224) * 4096 + (b1 - 128) * 64 + (b2 - 128), rest3)
        else (65533, rest3)
  else (65533, rest)

/-- UTF-8 decoding loop with explicit step fuel; every step consumes at
least one byte, so fuel equal to the byte count is always enough. -/
def utf8DecodeGo : Nat → List Nat → List Nat
  | _, [] => []
  | 0, _ :: _ => []
  | fuel + 1, b0 :: rest =>
      (utf8Step b0 rest).1 :: utf8DecodeGo fuel (utf8Step b0 rest).2

/-- UTF-8 decoding of a byte sequence back to code units
(`Utilities.newBlob(bytes).getDataAsString()`). -/
def utf8DecodeLenient (bs : List Nat) : List Nat :=
  utf8DecodeGo bs.length bs

/-- Standard base64 alphabet: sextet value to character code. -/
def sextetToChar (s : Nat) : Nat :=
  if s < 26 then 65 + s
  else if s < 52 then 97 + (s - 26)
  else if s < 62 then 48 + (s - 52)
  else if s = 62 then 43
  else 47

/-- Standard base64 alphabet: character code back to sextet value;
`none` for a character outside the alphabet. -/
def charToSextet (c : Nat) : Option Nat :=
  if 65 ≤ c ∧ c ≤ 90 then some (c - 65)
  else if 97 ≤ c ∧ c ≤ 122 then some (c - 97 + 26)
  else if 48 ≤ c ∧ c ≤ 57 then some (c - 48 + 52)
  else if c = 43 then some 62
  else if c = 47 then some 63
  else none

/-- Base64 encoding of a byte sequence, with `=` (code 61) padding. -/
def base64EncodeChunks : List Nat → List Nat
  | a :: b :: c :: rest =>
      sextetToChar (a / 4) :: sextetToChar (a % 4 * 16 + b / 16) ::
        sextetToChar (b % 16 * 4 + c / 64) :: sextetToChar (c % 64) ::
        base64EncodeChunks rest
  | [a, b] => [sextetToChar (a / 4), sextetToChar (a % 4 * 16 + b / 16),
               sextetToChar (b % 16 * 4), 61]
  | [a] => [sextetToChar (a / 4), sextetToChar (a % 4 * 16), 61, 61]
  | [] => []

/-- Base64 decoding of a character-code sequence to bytes; `none` models
the exception `Utilities.base64Decode` throws on input that is not validly
base64-encoded. -/
def base64Decode : List Nat → Option (List Nat)
  | [] => some []
  | c0 :: c1 :: c2 :: c3 :: rest =>
    match charToSextet c0, charToSextet c1 with
    | some s0, some s1 =>
      if c2 = 61 then
        if c3 = 61 ∧ rest = [] then some [s0 * 4 + s1 / 16] else none
      else
        match charToSextet c2 with
        | some s2 =>
          if c3 = 61 then
            if rest = [] then some [s0 * 4 + s1 / 16, s1 % 16 * 16 + s2 / 4]
            else none
          else
            match charToSextet c3 with
            | some s3 =>
              (base64Decode rest).map
                (fun bs => (s0 * 4 + s1 / 16) :: (s1 % 16 * 16 + s2 / 4) ::
                           (s2 % 4 * 64 + s3) :: bs)
            | none => none
        | none => none
    | _, _ => none
  | _ => none

/-- `Utilities.base64Encode` applied to a string: UTF-8 bytes, then base64
(src/Code.js line 933). -/
def base64EncodeString (s : List Nat) : List Nat :=
  base64EncodeChunks (utf8Encode s)

/-- Embedding of `xorEncrypt` (src/Code.js lines 918-934): rejects an
empty (or unset) secret, xors every code unit with the repeating key, then
base64-encodes the resulting string. -/
def xorEncrypt (data secretKey : List Nat) : Except String (List Nat) :=
  if secretKey.length = 0 then
    .error "Secret key is required for encryption"
  else
    .ok (base64EncodeString (xorWithKey data secretKey))

/-- Embedding of `xorDecrypt` (src/Code.js lines 974-993): base64-decode
(the only step of the body that can throw; the surrounding `try/catch`
rethrows a fixed message), convert the bytes back to a string, then xor
with the repeating key.  Note: no emptiness check on the secret here. -/
def xorDecrypt (encryptedData secretKey : List Nat) : Except String (List Nat) :=
  match base64Decode encryptedData with
  | none => .error "Decryption failed: Invalid token"
  | some bytes => .ok (xorWithKey (utf8DecodeLenient bytes) secretKey)

/-- Decimal digit character codes of a natural number, with step fuel; the
recursion divides by 10 each step, so fuel equal to the number is enough
(`natDigitsGo 0 0 = [48]` agrees with the fuel-free value). -/
def natDigitsGo : Nat → Nat → List Nat
  | 0, n => [48 + n % 10]
  | f + 1, n =>
      if n < 10 then [48 + n]
      else natDigitsGo f (n / 10) ++ [48 + n % 10]

/-- The decimal string of a natural number, as character codes (the
JavaScript string conversion in `sheetId + '|' + timestamp`). -/
def natDigits (n : Nat) : List Nat :=
  natDigitsGo n n

/-- Model of `parseInt` restricted to what the validator feeds it: parse
the leading run of decimal digits; `none` models `NaN` (no digit prefix).
The full `parseInt` also skips whitespace and handles signs and hex
prefixes, which `generateSheetToken` never produces. -/
def parseIntJS (s : List Nat) : Option Nat :=
  if s.takeWhile (fun c => 48 ≤ c && c ≤ 57) = [] then none
  else some ((s.takeWhile (fun c => 48 ≤ c && c ≤ 57)).foldl
    (fun acc c => acc * 10 + (c - 48)) 0)

/-- JavaScript `String.split` with a single-character separator
(`decryptedData.split('|')`, pipe = code 124). -/
def splitOnChar (sep : Nat) : List Nat → List (List Nat)
  | [] => [[]]
  | c :: cs =>
      if c = sep then [] :: splitOnChar sep cs
      else
        match splitOnChar sep cs with
        | [] => [[c]]
        | g :: gs => (c :: g) :: gs

/-- Result of `validateSheetToken`: `{isValid: true, sheetId, timestamp}`
on success, `{isValid: false, error}` on failure.  The timestamp is `none`
when `parseInt` returned `NaN`. -/
inductive ValidationResult where
  | valid (sheetId : List Nat) (timestamp : Option Nat)
  | invalid (error : String)
deriving DecidableEq

/-- The expiry test `currentTime - timestamp > 86400000` (src/Code.js line
1033).  The subtraction is over JavaScript numbers, hence the `Int` cast;
with a `NaN` timestamp the comparison is false, so no expiry error. -/
def isExpired (currentTime : Nat) (timestamp : Option Nat) : Bool :=
  match timestamp with
  | none => false
  | some t => decide ((currentTime : Int) - (t : Int) > 86400000)

/-- Embedding of `generateSheetToken` (src/Code.js lines 998-1009): fails
with the configuration error when the secret is unset, otherwise encrypts
`sheetId + '|' + timestamp`.  The sheet id and the clock reading are
explicit parameters (the source reads them from the spreadsheet and
`new Date()`). -/
def generateSheetToken (sheetId : List Nat) (timestamp : Nat)
    (secretKey : List Nat) : Except String (List Nat) :=
  if secretKey = [] then
    .error "Secret key is not configured. Cannot generate authentication token."
  else
    xorEncrypt (sheetId ++ 124 :: natDigits timestamp) secretKey

/-- The `try` body of `validateSheetToken` (src/Code.js lines 1016-1041):
secret check, decrypt, split on the pipe, exactly-two-parts check,
timestamp parse, expiry check. -/
def validateSheetTokenBody (encryptedToken secretKey : List Nat)
    (currentTime : Nat) : Except String (List Nat × Option Nat) :=
  if secretKey = [] then
    .error "Secret key is not configured. Cannot validate token."
  else
    match xorDecrypt encryptedToken secretKey with
    | .error e => .error e
    | .ok decryptedData =>
      let parts := splitOnChar 124 decryptedData
      if parts.length ≠ 2 then .error "Invalid token format"
      else
        let timestamp := parseIntJS (parts.getD 1 [])
        if isExpired currentTime timestamp then .error "Token expired"
        else .ok (parts.getD 0 [], timestamp)

/-- Embedding of `validateSheetToken` (src/Code.js lines 1014-1048): the
`try/catch` converts every thrown error into `{isValid: false, error}`. -/
def validateSheetToken (encryptedToken secretKey : List Nat)
    (currentTime : Nat) : ValidationResult :=
  match validateSheetTokenBody encryptedToken secretKey currentTime with
  | .ok (sheetId, timestamp) => .valid sheetId timestamp
  | .error e => .invalid e

/-! ### Sync engine: configuration, grid, deletion tracker, fetch, push -/

/-- User settings (src/Code.js lines 531-546): base URL and secret key,
the empty string when unset; `isConfigured` is the truthiness test
`!!baseUrl && !!secretKey`. -/
structure Config where
  baseUrl : String
  secretKey : String
deriving DecidableEq

def Config.isConfigured (c : Config) : Bool :=
  c.baseUrl ≠ "" && c.secretKey ≠ ""

/-- A product record of the remote response.  Field values are modelled as
strings (a numeric value by its decimal form); `none` is JavaScript
`undefined`. -/
structure Product where
  id : Option String := none
  type : Option String := none
  product_type : Option String := none
  parent_id : Option String := none
  name : Option String := none
  sku : Option String := none
  attributes : Option String := none
  regular_price : Option String := none
  sale_price : Option String := none
  stock_quantity : Option String := none
  stock : Option String := none
  status : Option String := none
  stock_status : Option String := none
deriving DecidableEq, Inhabited

/-- JavaScript truthiness of a possibly-undefined string value: `none`
(undefined) and the empty string are falsy.  (A numeric 0 cell is falsy in
the source but its string model "0" is truthy; no claim depends on a
product with id 0.) -/
def jsTruthy : Option String → Bool
  | none => false
  | some s => s ≠ ""

/-- JavaScript `a || b` on possibly-undefined string values. -/
def jsOr (a b : Option String) : Option String :=
  if jsTruthy a then a else b

/-- The cell content written for a value; `undefined` renders empty. -/
def cellOf (v : Option String) : String :=
  v.getD ""

/-- The ten grid headers of SHEET_CONFIG (src/Code.js lines 466-469). -/
def sheetHeaders : List String :=
  ["Product ID", "Type", "Parent ID", "Name", "SKU", "Attributes",
   "Regular Price", "Sale Price", "Stock", "Status"]

/-- The row written for one product (src/Code.js lines 718-729), with the
source's `||` fallbacks. -/
def productRowData (p : Product) : List String :=
  [cellOf p.id,
   cellOf (jsOr p.type (jsOr p.product_type (some "simple"))),
   cellOf (jsOr p.parent_id (some "")),
   cellOf p.name,
   cellOf p.sku,
   cellOf p.attributes,
   cellOf p.regular_price,
   cellOf p.sale_price,
   cellOf (jsOr p.stock_quantity p.stock),
   cellOf (jsOr p.status (jsOr p.stock_status (some "instock")))]

/-- The grid is the occupied rectangle of the sheet: one list of cell
strings per row; row 1 (index 0) is the header row. -/
abbrev Grid := List (List String)

/-- `setValues` starting at 0-based row `start`: overwrite, keeping the
rows before and after, extending at the end if needed. -/
def writeRowsAt (grid : Grid) (start : Nat) (rows : Grid) : Grid :=
  grid.take start ++ rows ++ grid.drop (start + rows.length)

/-- `getValues` pads a short row on the right with empty cells. -/
def padTo (n : Nat) (r : List String) : List String :=
  r ++ List.replicate (n - r.length) ""

/-- Embedding of `setupSheetHeaders` (src/Code.js lines 641-661): if the
first ten cells of row 1 differ from the headers, write the headers there
(keeping cells beyond the tenth); bold formatting and row freezing are
ignored. -/
def setupSheetHeaders (grid : Grid) : Grid :=
  if padTo 10 ((grid.headD []).take 10) = sheetHeaders then grid
  else writeRowsAt grid 0 [sheetHeaders ++ (grid.headD []).drop 10]

/-- `clearContent` on the ten columns of a data row (cells beyond the
tenth survive). -/
def clearRow (r : List String) : List String :=
  List.replicate 10 "" ++ r.drop 10

/-- Embedding of `updateSheetWithProducts` (src/Code.js lines 707-760):
clear the ten columns of every data row, then, when there is data, write
one row per product starting at row 2.  Column sizing is ignored and the
updated/new counts it returns are unused by its caller. -/
def updateSheetWithProducts (grid : Grid) (products : List Product) : Grid :=
  let cleared := grid.take 1 ++ (grid.drop 1).map clearRow
  let newData := products.map productRowData
  if newData.length > 0 then writeRowsAt cleared 1 newData else cleared

/-- The id-collection loop shared by `storeCurrentProductIds` and
`getDeletedProductIds` (src/Code.js lines 1066-1071 and 1088-1093): the
first cell of every data row, skipping falsy (empty) ids. -/
def collectProductIds (grid : Grid) : List String :=
  (grid.drop 1).filterMap fun row =>
    if row.headD "" = "" then none else some (row.headD "")

/-- Embedding of `storeCurrentProductIds` (src/Code.js lines 1060-1077):
the snapshot written to the STORED_PRODUCT_IDS property (its JSON
round-trip through the property store is assumed faithful). -/
def storeCurrentProductIds (grid : Grid) : List String :=
  collectProductIds grid

/-- Embedding of `getDeletedProductIds` (src/Code.js lines 1082-1109):
the stored ids absent from the current grid, in stored order; the empty
list when no snapshot exists (`stored = none`). -/
def getDeletedProductIds (grid : Grid) (stored : Option (List String)) :
    List String :=
  match stored with
  | none => []
  | some storedIds =>
      storedIds.filter fun pid => pid ∉ collectProductIds grid

/-- The catalog-read HTTP response.  `body` is the parse outcome of the
text: `none` models a body that is not valid JSON (`JSON.parse` throws),
`some none` a JSON body whose `data` is missing or not an array,
`some (some ps)` a proper `data` array. -/
structure FetchResponse where
  code : Nat
  text : String
  body : Option (Option (List Product))
deriving DecidableEq

/-- Document state threaded through the operations: the grid and the
STORED_PRODUCT_IDS snapshot (`none` when the property is unset). -/
structure DocState where
  grid : Grid
  stored : Option (List String)
deriving DecidableEq

/-- Result value of `fetchProducts`; the `count` field is only present on
success (the `url` field of the source is elided). -/
structure FetchResult where
  success : Bool
  message : String
  count : Option Nat
deriving DecidableEq

/-- The `try` body of `fetchProducts` (src/Code.js lines 563-627) as a
function from document state to the thrown-or-returned outcome plus the
state as mutated so far: configuration check, secret validation (the
duplicated call and the identical check in `generateSheetToken` collapse
to one branch), header setup, HTTP status check, JSON parse, `data` array
check, reverse, grid write, snapshot.  The HTTP response is a parameter;
the request URL inside the API-error message is elided. -/
def fetchProductsRun (cfg : Config) (resp : FetchResponse) (s : DocState) :
    Except String Nat × DocState :=
  if ¬ cfg.isConfigured then
    (.error "Please configure the WordPress API URL and secret key first in Settings.",
     s)
  else if cfg.secretKey = "" then
    (.error "Secret key is not configured. Please set up your secret key in Settings before using this feature.",
     s)
  else
    let grid1 := setupSheetHeaders s.grid
    let s1 : DocState := { s with grid := grid1 }
    if resp.code ≠ 200 then
      (.error ("API Error: " ++ resp.text), s1)
    else
      match resp.body with
      | none => (.error "SyntaxError: Unexpected token in JSON", s1)
      | some none => (.error "Invalid response format from API", s1)
      | some (some ps) =>
          let products := ps.reverse
          let grid2 := updateSheetWithProducts grid1 products
          (.ok products.length,
           { grid := grid2, stored := some (storeCurrentProductIds grid2) })

/-- Embedding of `fetchProducts` (src/Code.js lines 562-636): the `catch`
converts any thrown error into `{success: false, message}`. -/
def fetchProducts (cfg : Config) (resp : FetchResponse) (s : DocState) :
    FetchResult × DocState :=
  match fetchProductsRun cfg resp s with
  | (.ok n, s2) =>
      ({ success := true,
         message := "Successfully fetched " ++ toString n ++ " products",
         count := some n }, s2)
  | (.error e, s2) =>
      ({ success := false, message := e, count := none }, s2)

/-- `data: {updated: [...], deleted: [...]}` of the push response;
`none` fields are absent. -/
structure PushData where
  updated : Option (List String) := none
  deleted : Option (List String) := none
deriving DecidableEq

/-- Parsed JSON body of the push response. -/
structure PushParsed where
  message : Option String := none
  data : Option PushData := none
deriving DecidableEq

/-- The push HTTP response; `body = none` models text that is not valid
JSON. -/
structure PushResponse where
  code : Nat
  text : String
  body : Option PushParsed
deriving DecidableEq

/-- Result value of `updateProductsToWordPress`; the count fields are only
present on success. -/
structure PushResult where
  success : Bool
  message : String
  updatedCount : Option Nat
  deletedCount : Option Nat
deriving DecidableEq

/-- JavaScript `m || d` for a response message. -/
def msgOr (m : Option String) (d : String) : String :=
  match m with
  | none => d
  | some s => if s = "" then d else s

/-- `x ? x.length : 0` for a possibly-undefined array: an array, even an
empty one, is truthy. -/
def lengthOrZero (l : Option (List String)) : Nat :=
  match l with
  | none => 0
  | some l2 => l2.length

/-- The product payload built from a sheet row (src/Code.js lines
848-861); modelled for faithfulness of the construction step only — the
request body does not influence the modelled response. -/
def rowToProductPayload (row : List String) : List String :=
  [row.getD 0 "", row.getD 1 "", row.getD 2 "", row.getD 3 "", row.getD 4 "",
   row.getD 5 "", row.getD 6 "", row.getD 7 "", row.getD 8 "", row.getD 9 ""]

/-- The `try` body of `updateProductsToWordPress` (src/Code.js lines
839-904): configuration check, secret validation, payload construction,
HTTP status check (a non-200 response has its body parsed for a message),
and on 200: delete the STORED_PRODUCT_IDS property, trigger a re-fetch
(its result value is discarded but its state changes persist), parse the
response body, read `result.data.updated` / `result.data.deleted` —
reading `.updated` when `data` is absent throws a TypeError, caught by
the wrapper. -/
def updateProductsToWordPressRun (cfg : Config) (productRows : Grid)
    (deletedIds : List String) (resp : PushResponse) (refetch : FetchResponse)
    (s : DocState) : Except String (String × Nat × Nat) × DocState :=
  if ¬ cfg.isConfigured then
    (.error "Please configure the WordPress API URL and secret key first in Settings.",
     s)
  else if cfg.secretKey = "" then
    (.error "Secret key is not configured. Please set up your secret key in Settings before using this feature.",
     s)
  else
    let _payload := (productRows.map rowToProductPayload, deletedIds)
    if resp.code ≠ 200 then
      match resp.body with
      | none => (.error "SyntaxError: Unexpected token in JSON", s)
      | some p => (.error ("API Error: " ++ msgOr p.message resp.text), s)
    else
      let s1 : DocState := { s with stored := none }
      let s2 := (fetchProducts cfg refetch s1).2
      match resp.body with
      | none => (.error "SyntaxError: Unexpected token in JSON", s2)
      | some result =>
          match result.data with
          | none =>
              (.error "TypeError: Cannot read properties of undefined", s2)
          | some d =>
              (.ok (msgOr result.message "Products updated successfully",
                lengthOrZero d.updated, lengthOrZero d.deleted), s2)

/-- Embedding of `updateProductsToWordPress` (src/Code.js lines 838-913):
the `catch` converts any thrown error into `{success: false, message}`. -/
def updateProductsToWordPress (cfg : Config) (productRows : Grid)
    (deletedIds : List String) (resp : PushResponse) (refetch : FetchResponse)
    (s : DocState) : PushResult × DocState :=
  match updateProductsToWordPressRun cfg productRows deletedIds resp refetch s with
  | (.ok (msg, u, d), s2) =>
      ({ success := true, message := msg, updatedCount := some u,
         deletedCount := some d }, s2)
  | (.error e, s2) =>
      ({ success := false, message := e, updatedCount := none,
         deletedCount := none }, s2)

/-- Embedding of `getSelectedProductRows` (src/Code.js lines 800-815):
the rows of the selected 1-based row span, skipping the header row and
indices beyond the data (the source keeps `rowIndex` alongside each row;
only the row data is used downstream). -/
def getSelectedProductRows (startRow lastRow : Nat) (grid : Grid) : Grid :=
  ((List.range' startRow (lastRow + 1 - startRow)).filter
    (fun i => 1 < i && i ≤ grid.length)).map (fun i => grid.getD (i - 1) [])

/-- Embedding of `getAllProductRows` (src/Code.js lines 820-833): every
data row. -/
def getAllProductRows (grid : Grid) : Grid :=
  grid.drop 1

/-- Embedding of `updateSelectedProducts` (src/Code.js lines 765-778).
This wrapper has NO `try/catch`: the empty-selection validation error is
thrown to the caller, modelled by the `Except.error` result. -/
def updateSelectedProducts (cfg : Config) (startRow lastRow : Nat)
    (resp : PushResponse) (refetch : FetchResponse) (s : DocState) :
    Except String (PushResult × DocState) :=
  let selectedRows := getSelectedProductRows startRow lastRow s.grid
  if selectedRows.length = 0 then
    .error "Please select at least one product row to update."
  else
    .ok (updateProductsToWordPress cfg selectedRows
      (getDeletedProductIds s.grid s.stored) resp refetch s)

/-- Embedding of `updateAllProducts` (src/Code.js lines 783-795), also
without `try/catch`. -/
def updateAllProducts (cfg : Config) (resp : PushResponse)
    (refetch : FetchResponse) (s : DocState) :
    Except String (PushResult × DocState) :=
  let allRows := getAllProductRows s.grid
  if allRows.length = 0 then
    .error "No products found in the sheet. Please fetch products first."
  else
    .ok (updateProductsToWordPress cfg allRows
      (getDeletedProductIds s.grid s.stored) resp refetch s)

/-! ### Helper lemmas about the codec -/

theorem xorWithKeyAux_length (key : List Nat) (i : Nat) (cs : List Nat) :
    (xorWithKeyAux key i cs).length = cs.length := by
  induction cs generalizing i with
  | nil => rfl
  | cons c cs ih => simp [xorWithKeyAux, ih]

theorem getD_lt_65536 (key : List Nat) (hk : ∀ k ∈ key, k < 65536) (j : Nat) :
    key.getD j 0 < 65536 := by
  rcases Nat.lt_or_ge j key.length with h | h
  · rw [List.getD_eq_getElem key 0 h]
    exact hk _ (List.getElem_mem h)
  · rw [List.getD_eq_getElem?_getD, List.getElem?_eq_none h]
    simp

theorem xorWithKeyAux_lt (key : List Nat) (i : Nat) (cs : List Nat) :
    ∀ c ∈ xorWithKeyAux key i cs, c < 65536 := by
  induction cs generalizing i with
  | nil => intro c hc; cases hc
  | cons c cs ih =>
      intro d hd
      simp only [xorWithKeyAux, List.mem_cons] at hd
      rcases hd with h | h
      · rw [h]; exact Nat.mod_lt _ (by omega)
      · exact ih (i + 1) d h

theorem xor_lt_65536 {a b : Nat} (ha : a < 65536) (hb : b < 65536) :
    a ^^^ b < 65536 := by
  have h : a ^^^ b < 2 ^ 16 := Nat.bitwise_lt (by omega) (by omega)
  omega

theorem xorWithKeyAux_involution (key : List Nat) (hk : ∀ k ∈ key, k < 65536)
    (i : Nat) (cs : List Nat) (hc : ∀ c ∈ cs, c < 65536) :
    xorWithKeyAux key i (xorWithKeyAux key i cs) = cs := by
  induction cs generalizing i with
  | nil => rfl
  | cons c cs ih =>
      have hck : key.getD (i % key.length) 0 < 65536 := getD_lt_65536 key hk _
      have hc0 : c < 65536 := hc c (by simp)
      have hxor : c ^^^ key.getD (i % key.length) 0 < 65536 := xor_lt_65536 hc0 hck
      simp only [xorWithKeyAux]
      rw [Nat.mod_eq_of_lt hxor, Nat.xor_cancel_right, Nat.mod_eq_of_lt hc0,
        ih (i + 1) (fun d hd => hc d (by simp [hd]))]

theorem xorWithKey_involution (key : List Nat) (hk : ∀ k ∈ key, k < 65536)
    (cs : List Nat) (hc : ∀ c ∈ cs, c < 65536) :
    xorWithKey (xorWithKey cs key) key = cs :=
  xorWithKeyAux_involution key hk 0 cs hc

theorem xorWithKeyAux_getD (key : List Nat) (cs : List Nat) :
    ∀ i j, i < cs.length →
      (xorWithKeyAux key j cs).getD i 0 =
        ((cs.getD i 0) ^^^ key.getD ((j + i) % key.length) 0) % 65536 := by
  induction cs with
  | nil => intro i j h; cases h
  | cons c cs ih =>
      intro i j h
      cases i with
      | zero => simp [xorWithKeyAux]
      | succ i =>
          simp only [xorWithKeyAux, List.getD_cons_succ]
          rw [ih i (j + 1) (by simpa using h), show j + 1 + i = j + (i + 1) by omega]

theorem xorWithKeyAux_nil (i : Nat) (cs : List Nat) (hc : ∀ c ∈ cs, c < 65536) :
    xorWithKeyAux [] i cs = cs := by
  induction cs generalizing i with
  | nil => rfl
  | cons c cs ih =>
      have hc0 : c < 65536 := hc c (by simp)
      simp only [xorWithKeyAux, List.getD_nil, Nat.xor_zero]
      rw [Nat.mod_eq_of_lt hc0, ih (i + 1) (fun d hd => hc d (by simp [hd]))]

theorem xorWithKey_nil (cs : List Nat) (hc : ∀ c ∈ cs, c < 65536) :
    xorWithKey cs [] = cs :=
  xorWithKeyAux_nil 0 cs hc

theorem utf8EncodeChar_lt (c : Nat) (h : c < 65536) :
    ∀ b ∈ utf8EncodeChar c, b < 256 := by
  intro b hb
  unfold utf8EncodeChar at hb
  split_ifs at hb <;> simp_all <;> omega

theorem utf8Encode_lt (cs : List Nat) (h : ∀ c ∈ cs, c < 65536) :
    ∀ b ∈ utf8Encode cs, b < 256 := by
  induction cs with
  | nil => intro b hb; cases hb
  | cons c cs ih =>
      intro b hb
      simp only [utf8Encode, List.mem_append] at hb
      rcases hb with hb | hb
      · exact utf8EncodeChar_lt c (h c (by simp)) b hb
      · exact ih (fun d hd => h d (by simp [hd])) b hb

theorem utf8EncodeChar_length_pos (c : Nat) : 1 ≤ (utf8EncodeChar c).length := by
  unfold utf8EncodeChar
  split_ifs <;> simp

theorem utf8Step_encodeChar (c : Nat) (h : c < 65536) (bs : List Nat) :
    ∃ b0 r, utf8EncodeChar c ++ bs = b0 :: r ∧ utf8Step b0 r = (c, bs) := by
  unfold utf8EncodeChar
  split_ifs with h1 h2
  · exact ⟨c, bs, rfl, by unfold utf8Step; rw [if_pos h1]⟩
  · have e1 : ¬ (192 + c / 64 < 128) := by omega
    have e2 : ¬ (192 + c / 64 < 192) := by omega
    have e3 : 192 + c / 64 < 224 := by omega
    have e4 : 128 ≤ 128 + c % 64 ∧ 128 + c % 64 < 192 := by
      constructor <;> omega
    refine ⟨192 + c / 64, (128 + c % 64) :: bs, rfl, ?_⟩
    simp only [utf8Step, if_neg e1, if_neg e2, if_pos e3, if_pos e4, Prod.mk.injEq]
    exact ⟨by omega, trivial⟩
  · have e1 : ¬ (224 + c / 4096 < 128) := by omega
    have e2 : ¬ (224 + c / 4096 < 192) := by omega
    have e3 : ¬ (224 + c / 4096 < 224) := by omega
    have e4 : 224 + c / 4096 < 240 := by omega
    have e5 : 128 ≤ 128 + c / 64 % 64 ∧ 128 + c / 64 % 64 < 192 ∧
        128 ≤ 128 + c % 64 ∧ 128 + c % 64 < 192 := by
      refine ⟨by omega, by omega, by omega, by omega⟩
    refine ⟨224 + c / 4096, (128 + c / 64 % 64) :: (128 + c % 64) :: bs, rfl, ?_⟩
    simp only [utf8Step, if_neg e1, if_neg e2, if_neg e3, if_pos e4, if_pos e5,
      Prod.mk.injEq]
    exact ⟨by omega, trivial⟩

theorem utf8DecodeGo_encode (cs : List Nat) : ∀ fuel, (∀ c ∈ cs, c < 65536) →
    (utf8Encode cs).length ≤ fuel → utf8DecodeGo fuel (utf8Encode cs) = cs := by
  induction cs with
  | nil => intro fuel _ _; cases fuel <;> rfl
  | cons c cs ih =>
      intro fuel hlt hlen
      have hc : c < 65536 := hlt c (by simp)
      obtain ⟨b0, r, heq, hstep⟩ := utf8Step_encodeChar c hc (utf8Encode cs)
      have hform : utf8Encode (c :: cs) = utf8EncodeChar c ++ utf8Encode cs := rfl
      rw [hform, heq] at hlen ⊢
      have hr : (utf8Encode cs).length ≤ r.length := by
        have := congrArg List.length heq
        simp only [List.length_append, List.length_cons] at this
        have h1 := utf8EncodeChar_length_pos c
        omega
      cases fuel with
      | zero => simp at hlen
      | succ f =>
          simp only [utf8DecodeGo, hstep]
          rw [ih f (fun d hd => hlt d (by simp [hd])) (by simp at hlen; omega)]

theorem utf8_roundtrip (cs : List Nat) (h : ∀ c ∈ cs, c < 65536) :
    utf8DecodeLenient (utf8Encode cs) = cs :=
  utf8DecodeGo_encode cs (utf8Encode cs).length h le_rfl

theorem utf8Step_fst_lt (b0 : Nat) (rest : List Nat) :
    (utf8Step b0 rest).1 < 65536 := by
  unfold utf8Step
  split_ifs with h1 h2 h3 h4
  · omega
  · omega
  · cases rest with
    | nil => simp
    | cons b1 rest2 =>
        simp only
        split_ifs with h5
        · simp; omega
        · simp
  · cases rest with
    | nil => simp
    | cons b1 rest2 =>
        cases rest2 with
        | nil => simp
        | cons b2 rest3 =>
            simp only
            split_ifs with h5
            · simp; omega
            · simp
  · omega

theorem utf8DecodeGo_lt (fuel : Nat) : ∀ bs : List Nat,
    ∀ v ∈ utf8DecodeGo fuel bs, v < 65536 := by
  induction fuel with
  | zero => intro bs v hv; cases bs <;> simp [utf8DecodeGo] at hv
  | succ f ih =>
      intro bs v hv
      cases bs with
      | nil => simp [utf8DecodeGo] at hv
      | cons b0 rest =>
          simp only [utf8DecodeGo, List.mem_cons] at hv
          rcases hv with hv | hv
          · rw [hv]; exact utf8Step_fst_lt b0 rest
          · exact ih _ v hv

theorem utf8DecodeLenient_lt (bs : List Nat) :
    ∀ v ∈ utf8DecodeLenient bs, v < 65536 :=
  utf8DecodeGo_lt bs.length bs

theorem charToSextet_sextetToChar_fin :
    ∀ s : Fin 64, charToSextet (sextetToChar s.val) = some s.val := by decide

theorem charToSextet_sextetToChar (s : Nat) (h : s < 64) :
    charToSextet (sextetToChar s) = some s :=
  charToSextet_sextetToChar_fin ⟨s, h⟩

theorem sextetToChar_ne_61_fin : ∀ s : Fin 64, ¬ sextetToChar s.val = 61 := by decide

theorem sextetToChar_ne_61 (s : Nat) (h : s < 64) : ¬ sextetToChar s = 61 :=
  sextetToChar_ne_61_fin ⟨s, h⟩

theorem base64_roundtrip (bs : List Nat) (h : ∀ b ∈ bs, b < 256) :
    base64Decode (base64EncodeChunks bs) = some bs := by
  induction bs using base64EncodeChunks.induct with
  | case1 a b c rest ih =>
      have ha : a < 256 := h a (by simp)
      have hb : b < 256 := h b (by simp)
      have hc : c < 256 := h c (by simp)
      have hs0 := charToSextet_sextetToChar (a / 4) (by omega)
      have hs1 := charToSextet_sextetToChar (a % 4 * 16 + b / 16) (by omega)
      have hs2 := charToSextet_sextetToChar (b % 16 * 4 + c / 64) (by omega)
      have hs3 := charToSextet_sextetToChar (c % 64) (by omega)
      have e2 : (sextetToChar (b % 16 * 4 + c / 64) = 61) = False :=
        eq_false (sextetToChar_ne_61 _ (by omega))
      have e3 : (sextetToChar (c % 64) = 61) = False :=
        eq_false (sextetToChar_ne_61 _ (by omega))
      have hrest := ih (fun d hd => h d (by simp [hd]))
      simp only [base64EncodeChunks, base64Decode, hs0, hs1, hs2, hs3, e2, e3,
        if_false, hrest, Option.map_some', Option.some.injEq, List.cons.injEq]
      refine ⟨by omega, by omega, by omega, trivial⟩
  | case2 a b =>
      have ha : a < 256 := h a (by simp)
      have hb : b < 256 := h b (by simp)
      have hs0 := charToSextet_sextetToChar (a / 4) (by omega)
      have hs1 := charToSextet_sextetToChar (a % 4 * 16 + b / 16) (by omega)
      have hs2 := charToSextet_sextetToChar (b % 16 * 4) (by omega)
      have e2 : (sextetToChar (b % 16 * 4) = 61) = False :=
        eq_false (sextetToChar_ne_61 _ (by omega))
      simp only [base64EncodeChunks, base64Decode, hs0, hs1, hs2, e2, if_false,
        if_true, and_self, and_true, Option.some.injEq, List.cons.injEq]
      omega
  | case3 a =>
      have ha : a < 256 := h a (by simp)
      have hs0 := charToSextet_sextetToChar (a / 4) (by omega)
      have hs1 := charToSextet_sextetToChar (a % 4 * 16) (by omega)
      simp only [base64EncodeChunks, base64Decode, hs0, hs1, if_true, and_self,
        and_true, Option.some.injEq, List.cons.injEq]
      omega
  | case4 => rfl

theorem xorWithKey_lt (data key : List Nat) : ∀ c ∈ xorWithKey data key, c < 65536 :=
  xorWithKeyAux_lt key 0 data

theorem xorEncrypt_ok (P S : List Nat) (hS : S ≠ []) :
    xorEncrypt P S = .ok (base64EncodeString (xorWithKey P S)) := by
  unfold xorEncrypt
  rw [if_neg (fun h => hS (List.length_eq_zero.mp h))]

theorem xorDecrypt_encrypt (P S : List Nat)
    (hPc : ∀ c ∈ P, c < 65536) (hSc : ∀ c ∈ S, c < 65536) :
    xorDecrypt (base64EncodeString (xorWithKey P S)) S = .ok P := by
  have h1 : ∀ c ∈ xorWithKey P S, c < 65536 := xorWithKey_lt P S
  have h2 := base64_roundtrip (utf8Encode (xorWithKey P S)) (utf8Encode_lt _ h1)
  have h3 := utf8_roundtrip (xorWithKey P S) h1
  unfold xorDecrypt base64EncodeString
  rw [h2]
  simp only [h3, xorWithKey_involution S hSc P hPc]

/-! ### The claims about the token codec -/

/-- C1: token round-trip.  For every non-empty plaintext `P` and every
non-empty secret `S` (sequences of UTF-16 code units, hence every code
below 65536), decoding the result of encoding `P` with `S`, using the same
secret `S`, returns exactly `P`. -/
theorem token_round_trip (P S : List Nat) (_hP : P ≠ []) (hS : S ≠ [])
    (hPc : ∀ c ∈ P, c < 65536) (hSc : ∀ c ∈ S, c < 65536) :
    ∃ t, xorEncrypt P S = .ok t ∧ xorDecrypt t S = .ok P :=
  ⟨base64EncodeString (xorWithKey P S), xorEncrypt_ok P S hS,
    xorDecrypt_encrypt P S hPc hSc⟩

/-- Witness for C1 at plaintext [72, 105] and secret [107, 101, 121]. -/
theorem token_round_trip_witness :
    ∃ t, xorEncrypt [72, 105] [107, 101, 121] = .ok t ∧
      xorDecrypt t [107, 101, 121] = .ok [72, 105] :=
  token_round_trip [72, 105] [107, 101, 121] (by decide) (by decide)
    (by decide) (by decide)

/-- C6: encode precondition.  Encoding with an empty (or unset) secret
fails with the configuration error; with a non-empty secret the
pre-base64 sequence has the same length as the plaintext and its entry at
every position `i` is the plaintext code at `i` xor-ed with the secret
code at `i mod length(secret)`. -/
theorem xorEncrypt_spec (P S : List Nat) (hS : S ≠ [])
    (hPc : ∀ c ∈ P, c < 65536) (hSc : ∀ c ∈ S, c < 65536) :
    xorEncrypt P [] = .error "Secret key is required for encryption" ∧
    xorEncrypt P S = .ok (base64EncodeString (xorWithKey P S)) ∧
    (xorWithKey P S).length = P.length ∧
    ∀ i, i < P.length →
      (xorWithKey P S).getD i 0 = (P.getD i 0) ^^^ (S.getD (i % S.length) 0) := by
  refine ⟨rfl, xorEncrypt_ok P S hS, xorWithKeyAux_length S 0 P, ?_⟩
  intro i hi
  have hstep := xorWithKeyAux_getD S P i 0 hi
  rw [Nat.zero_add] at hstep
  have hp : P.getD i 0 < 65536 := by
    rw [List.getD_eq_getElem P 0 hi]
    exact hPc _ (List.getElem_mem hi)
  have hk : S.getD (i % S.length) 0 < 65536 := getD_lt_65536 S hSc _
  rw [show xorWithKey P S = xorWithKeyAux S 0 P from rfl, hstep,
    Nat.mod_eq_of_lt (xor_lt_65536 hp hk)]

/-- Witness for C6 at plaintext [72, 105] and secret [107]. -/
theorem xorEncrypt_spec_witness :
    xorEncrypt [72, 105] [] = .error "Secret key is required for encryption" ∧
    (xorWithKey [72, 105] [107]).length = 2 := by
  have h := xorEncrypt_spec [72, 105] [107] (by decide) (by decide) (by decide)
  exact ⟨h.1, h.2.2.1⟩

/-- C7 counterexample: decoding a valid base64 token with an empty secret
does not fail; the claim that an empty secret always yields a decode error
is false on the code.  [81, 81, 61, 61] is the base64 text of the single
byte 65, and decoding it with the empty secret returns [65]. -/
theorem xorDecrypt_empty_secret_ok :
    xorDecrypt [81, 81, 61, 61] [] = .ok [65] := rfl

/-- C7 amended: decoding fails (with the decode error) exactly when the
input is not validly base64-encoded; an empty secret does not cause a
failure — the xor loop runs with a missing key character, which behaves as
xor with 0, so the base64-decoded string is returned unchanged. -/
theorem xorDecrypt_failure_conditions (tok sec : List Nat) :
    (base64Decode tok = none →
      xorDecrypt tok sec = .error "Decryption failed: Invalid token") ∧
    (∀ bs, base64Decode tok = some bs →
      xorDecrypt tok sec = .ok (xorWithKey (utf8DecodeLenient bs) sec)) ∧
    (∀ bs, base64Decode tok = some bs → sec = [] →
      xorDecrypt tok sec = .ok (utf8DecodeLenient bs)) := by
  refine ⟨?_, ?_, ?_⟩
  · intro h; unfold xorDecrypt; rw [h]
  · intro bs h; unfold xorDecrypt; rw [h]
  · intro bs h hsec
    unfold xorDecrypt
    rw [h, hsec]
    simp only [xorWithKey_nil _ (utf8DecodeLenient_lt bs)]

/-- Witness for the amended C7: [33] is not valid base64 and fails;
[81, 81, 61, 61] is valid and decodes. -/
theorem xorDecrypt_failure_conditions_witness :
    xorDecrypt [33] [107] = .error "Decryption failed: Invalid token" ∧
    xorDecrypt [81, 81, 61, 61] [107] =
      .ok (xorWithKey (utf8DecodeLenient [65]) [107]) :=
  ⟨(xorDecrypt_failure_conditions [33] [107]).1 rfl,
   (xorDecrypt_failure_conditions [81, 81, 61, 61] [107]).2.1 [65] rfl⟩

/-! ### Token issue and validation -/

theorem natDigitsGo_digits : ∀ f n, n ≤ f → ∀ c ∈ natDigitsGo f n, 48 ≤ c ∧ c ≤ 57 := by
  intro f
  induction f with
  | zero =>
      intro n _ c hc
      simp only [natDigitsGo, List.mem_singleton] at hc
      omega
  | succ f ih =>
      intro n hn c hc
      simp only [natDigitsGo] at hc
      split_ifs at hc with h
      · simp only [List.mem_singleton] at hc
        omega
      · simp only [List.mem_append, List.mem_singleton] at hc
        rcases hc with h1 | h1
        · exact ih (n / 10) (by omega) c h1
        · omega

theorem natDigitsGo_ne_nil (f n : Nat) : natDigitsGo f n ≠ [] := by
  cases f with
  | zero => simp [natDigitsGo]
  | succ f =>
      simp only [natDigitsGo]
      split_ifs <;> simp

theorem natDigitsGo_foldl : ∀ f n, n ≤ f → ∀ a : Nat,
    (natDigitsGo f n).foldl (fun acc c => acc * 10 + (c - 48)) a =
      a * 10 ^ (natDigitsGo f n).length + n := by
  intro f
  induction f with
  | zero =>
      intro n hn a
      have h0 : n = 0 := by omega
      subst h0
      simp [natDigitsGo]
  | succ f ih =>
      intro n hn a
      by_cases h : n < 10
      · simp only [natDigitsGo, if_pos h, List.foldl_cons, List.foldl_nil,
          List.length_singleton, pow_one]
        omega
      · simp only [natDigitsGo, if_neg h, List.foldl_append, List.length_append,
          List.foldl_cons, List.foldl_nil, List.length_singleton]
        rw [ih (n / 10) (by omega) a]
        have hsub : 48 + n % 10 - 48 = n % 10 := by omega
        rw [hsub, pow_succ]
        calc (a * 10 ^ (natDigitsGo f (n / 10)).length + n / 10) * 10 + n % 10
            = a * (10 ^ (natDigitsGo f (n / 10)).length * 10) +
                (n / 10 * 10 + n % 10) := by ring
          _ = a * (10 ^ (natDigitsGo f (n / 10)).length * 10) + n := by
                have hdm : n / 10 * 10 + n % 10 = n := by omega
                rw [hdm]

theorem natDigits_digits (n : Nat) : ∀ c ∈ natDigits n, 48 ≤ c ∧ c ≤ 57 :=
  natDigitsGo_digits n n le_rfl

theorem natDigits_ne_nil (n : Nat) : natDigits n ≠ [] :=
  natDigitsGo_ne_nil n n

theorem parseIntJS_natDigits (n : Nat) : parseIntJS (natDigits n) = some n := by
  unfold parseIntJS
  have hall : ∀ c ∈ natDigits n, (48 ≤ c && c ≤ 57) = true := by
    intro c hc
    have h := natDigits_digits n c hc
    simp only [Bool.and_eq_true, decide_eq_true_eq]
    omega
  rw [List.takeWhile_eq_self_iff.mpr hall, if_neg (natDigits_ne_nil n)]
  have h := natDigitsGo_foldl n n le_rfl 0
  unfold natDigits
  rw [h]
  simp

theorem splitOnChar_not_mem (sep : Nat) (xs : List Nat) (h : sep ∉ xs) :
    splitOnChar sep xs = [xs] := by
  induction xs with
  | nil => rfl
  | cons c cs ih =>
      have hc : ¬ c = sep := by
        intro e
        exact h (by simp [e])
      simp only [splitOnChar, if_neg hc]
      rw [ih (fun hm => h (by simp [hm]))]

theorem splitOnChar_append (sep : Nat) (xs ys : List Nat) (h : sep ∉ xs) :
    splitOnChar sep (xs ++ sep :: ys) = xs :: splitOnChar sep ys := by
  induction xs with
  | nil => simp [splitOnChar]
  | cons c cs ih =>
      have hc : ¬ c = sep := by
        intro e
        exact h (by simp [e])
      simp only [List.cons_append, splitOnChar, if_neg hc, List.append_eq]
      rw [ih (fun hm => h (by simp [hm]))]

theorem validate_generated_token (sheetId secret : List Nat) (T now : Nat)
    (hsec : secret ≠ []) (hsid : ∀ c ∈ sheetId, c < 65536)
    (hsecC : ∀ c ∈ secret, c < 65536) (hpipe : 124 ∉ sheetId) :
    generateSheetToken sheetId T secret =
      .ok (base64EncodeString (xorWithKey (sheetId ++ 124 :: natDigits T) secret)) ∧
    validateSheetToken
        (base64EncodeString (xorWithKey (sheetId ++ 124 :: natDigits T) secret))
        secret now =
      (if (now : Int) - (T : Int) > 86400000 then .invalid "Token expired"
       else .valid sheetId (some T)) := by
  have hdata : ∀ c ∈ sheetId ++ 124 :: natDigits T, c < 65536 := by
    intro c hc
    simp only [List.mem_append, List.mem_cons] at hc
    rcases hc with h | h | h
    · exact hsid c h
    · omega
    · have := natDigits_digits T c h
      omega
  constructor
  · unfold generateSheetToken
    rw [if_neg hsec]
    exact xorEncrypt_ok _ secret hsec
  · have hdec := xorDecrypt_encrypt (sheetId ++ 124 :: natDigits T) secret hdata hsecC
    have hnd : (124 : Nat) ∉ natDigits T := by
      intro hm
      have := natDigits_digits T 124 hm
      omega
    have hsplit : splitOnChar 124 (sheetId ++ 124 :: natDigits T) =
        [sheetId, natDigits T] := by
      rw [splitOnChar_append 124 sheetId (natDigits T) hpipe,
        splitOnChar_not_mem 124 _ hnd]
    unfold validateSheetToken validateSheetTokenBody
    rw [if_neg hsec, hdec]
    simp only [hsplit, List.length_cons, List.length_nil, List.getD_cons_succ,
      List.getD_cons_zero, parseIntJS_natDigits, isExpired]
    rw [if_neg (by omega)]
    by_cases hexp : (now : Int) - (T : Int) > 86400000
    · rw [if_pos hexp, if_pos (by simpa using hexp)]
    · rw [if_neg hexp, if_neg (by simpa using hexp)]

/-- C2: token expiry boundary.  A token generated at time `T` (for a sheet
id without a pipe character) validates as expired at every current time
from `T + 86400001` on, and succeeds at every current time up to
`T + 86400000`; the test is strictly `now - issuedAt > 86400000`. -/
theorem token_expiry_boundary (sheetId secret : List Nat) (T now : Nat)
    (hsec : secret ≠ []) (hsid : ∀ c ∈ sheetId, c < 65536)
    (hsecC : ∀ c ∈ secret, c < 65536) (hpipe : 124 ∉ sheetId)
    (tok : List Nat) (htok : generateSheetToken sheetId T secret = .ok tok) :
    (T + 86400001 ≤ now →
      validateSheetToken tok secret now = .invalid "Token expired") ∧
    (now ≤ T + 86400000 →
      validateSheetToken tok secret now = .valid sheetId (some T)) := by
  obtain ⟨h1, h2⟩ := validate_generated_token sheetId secret T now hsec hsid hsecC hpipe
  rw [htok] at h1
  have htokeq : tok =
      base64EncodeString (xorWithKey (sheetId ++ 124 :: natDigits T) secret) :=
    (Except.ok.injEq _ _).mp h1
  rw [htokeq]
  constructor
  · intro hlate
    rw [h2, if_pos (by omega)]
  · intro hearly
    rw [h2, if_neg (by omega)]

/-- Witness for C2 at sheet id [65], secret [107], issue time 5; the token
is [75, 104, 100, 101]; validation at 86400006 is expired, at 86400005 it
succeeds. -/
theorem token_expiry_boundary_witness :
    validateSheetToken [75, 104, 100, 101] [107] 86400006 =
      .invalid "Token expired" ∧
    validateSheetToken [75, 104, 100, 101] [107] 86400005 =
      .valid [65] (some 5) := by
  have h1 := token_expiry_boundary [65] [107] 5 86400006 (by decide) (by decide)
    (by decide) (by decide) [75, 104, 100, 101] rfl
  have h2 := token_expiry_boundary [65] [107] 5 86400005 (by decide) (by decide)
    (by decide) (by decide) [75, 104, 100, 101] rfl
  exact ⟨h1.1 (by omega), h2.2 (by omega)⟩

/-- C10: token validation is total.  For every token, secret and current
time the result is either valid (with sheet id and timestamp) or invalid
(with an error message) — never a raised fault; in particular an unset
secret and a malformed base64 token each yield an invalid result with the
corresponding message. -/
theorem validateSheetToken_total (tok sec : List Nat) (now : Nat) :
    ((∃ sid ts, validateSheetToken tok sec now = .valid sid ts) ∨
      (∃ e, validateSheetToken tok sec now = .invalid e)) ∧
    (sec = [] → validateSheetToken tok sec now =
      .invalid "Secret key is not configured. Cannot validate token.") ∧
    (sec ≠ [] → base64Decode tok = none → validateSheetToken tok sec now =
      .invalid "Decryption failed: Invalid token") := by
  refine ⟨?_, ?_, ?_⟩
  · cases hv : validateSheetToken tok sec now with
    | valid sid ts => exact .inl ⟨sid, ts, rfl⟩
    | invalid e => exact .inr ⟨e, rfl⟩
  · intro h
    subst h
    rfl
  · intro hs hb
    unfold validateSheetToken validateSheetTokenBody xorDecrypt
    rw [if_neg hs, hb]

/-- Witness for C10: empty secret, and a non-base64 token with a non-empty
secret. -/
theorem validateSheetToken_total_witness :
    validateSheetToken [81] [] 0 =
      .invalid "Secret key is not configured. Cannot validate token." ∧
    validateSheetToken [33] [107] 0 =
      .invalid "Decryption failed: Invalid token" :=
  ⟨(validateSheetToken_total [81] [] 0).2.1 rfl,
   (validateSheetToken_total [33] [107] 0).2.2 (by decide) rfl⟩

/-! ### The claims about the sync engine -/

/-- C3: deletion diff.  With no snapshot the diff is empty for every
current grid; with a snapshot it returns exactly the stored ids absent
from the current grid ids, as a sublist of the snapshot (hence in the
snapshot's original order); on the spec's example — snapshot
["1","2","3"], current grid ids {"1","3"} — it returns exactly ["2"]. -/
theorem deletion_diff (grid : Grid) (storedIds : List String) :
    getDeletedProductIds grid none = [] ∧
    (∀ pid, pid ∈ getDeletedProductIds grid (some storedIds) ↔
      (pid ∈ storedIds ∧ pid ∉ collectProductIds grid)) ∧
    List.Sublist (getDeletedProductIds grid (some storedIds)) storedIds ∧
    getDeletedProductIds [["h"], ["1"], ["3"]] (some ["1", "2", "3"]) = ["2"] := by
  refine ⟨rfl, ?_, ?_, by decide⟩
  · intro pid
    unfold getDeletedProductIds
    rw [List.mem_filter]
    simp
  · unfold getDeletedProductIds
    exact List.filter_sublist storedIds

/-- C9: unconfigured fetch atomicity.  When the base URL or the secret is
missing (`isConfigured` false), fetch returns `{success: false}` with the
configuration message, and the document state — grid and snapshot — is
returned completely unchanged. -/
theorem fetch_unconfigured (cfg : Config) (resp : FetchResponse)
    (s : DocState) (h : cfg.isConfigured = false) :
    fetchProducts cfg resp s =
      ({ success := false,
         message := "Please configure the WordPress API URL and secret key first in Settings.",
         count := none }, s) := by
  unfold fetchProducts fetchProductsRun
  rw [if_pos (by simp [h])]

/-- Witness for C9 at an empty configuration. -/
theorem fetch_unconfigured_witness :
    fetchProducts ⟨"", ""⟩ ⟨200, "", some (some [])⟩ ⟨[], none⟩ =
      ({ success := false,
         message := "Please configure the WordPress API URL and secret key first in Settings.",
         count := none }, ⟨[], none⟩) :=
  fetch_unconfigured ⟨"", ""⟩ ⟨200, "", some (some [])⟩ ⟨[], none⟩ rfl

theorem setupSheetHeaders_ne_nil (grid : Grid) : setupSheetHeaders grid ≠ [] := by
  unfold setupSheetHeaders writeRowsAt
  split_ifs with h
  · intro hg
    subst hg
    simp [padTo, sheetHeaders] at h
  · simp

theorem updateSheetWithProducts_data_rows (grid : Grid) (hne : grid ≠ [])
    (qs : List Product) :
    ((updateSheetWithProducts grid qs).drop 1).take qs.length =
      qs.map productRowData := by
  obtain ⟨r, grid2, rfl⟩ : ∃ r g2, grid = r :: g2 := by
    cases grid with
    | nil => exact absurd rfl hne
    | cons a b => exact ⟨a, b, rfl⟩
  unfold updateSheetWithProducts writeRowsAt
  cases qs with
  | nil => simp
  | cons q qs2 =>
      rw [if_pos (by simp)]
      simp only [List.take_succ_cons, List.take_zero, List.drop_succ_cons,
        List.cons_append, List.nil_append]
      exact List.take_left' (by simp)

theorem fetchProductsRun_ok (cfg : Config) (resp : FetchResponse)
    (s : DocState) (ps : List Product) (hconf : cfg.isConfigured = true)
    (hcode : resp.code = 200) (hbody : resp.body = some (some ps)) :
    fetchProductsRun cfg resp s =
      (.ok ps.length,
       { grid := updateSheetWithProducts (setupSheetHeaders s.grid) ps.reverse,
         stored := some (storeCurrentProductIds
           (updateSheetWithProducts (setupSheetHeaders s.grid) ps.reverse)) }) := by
  have hsk : ¬ cfg.secretKey = "" := by
    have := hconf
    unfold Config.isConfigured at this
    simp only [Bool.and_eq_true, decide_eq_true_eq] at this
    exact this.2
  unfold fetchProductsRun
  rw [if_neg (by simp [hconf]), if_neg hsk, if_neg (by simp [hcode]), hbody]
  simp

/-- C5: fetch ordering.  For every remote response with HTTP status 200
and data array `ps`, the fetch succeeds with count `|ps|` and the first
`|ps|` data rows of the resulting grid (rows 2 through `|ps| + 1`) are
the products in reverse order, one row per product: the reversed array
mapped through the row construction. -/
theorem fetch_reverse_order (cfg : Config) (resp : FetchResponse)
    (s : DocState) (ps : List Product) (hconf : cfg.isConfigured = true)
    (hcode : resp.code = 200) (hbody : resp.body = some (some ps)) :
    (fetchProducts cfg resp s).1.success = true ∧
    (fetchProducts cfg resp s).1.count = some ps.length ∧
    (((fetchProducts cfg resp s).2.grid.drop 1).take ps.length =
      ps.reverse.map productRowData) := by
  have hrun := fetchProductsRun_ok cfg resp s ps hconf hcode hbody
  have hrows := updateSheetWithProducts_data_rows (setupSheetHeaders s.grid)
    (setupSheetHeaders_ne_nil s.grid) ps.reverse
  unfold fetchProducts
  rw [hrun]
  simp only [List.length_reverse] at hrows
  exact ⟨rfl, rfl, hrows⟩

/-- Witness for C5: a configured fetch of products with ids 1, 2, 3 into
an empty grid puts id 3 in the first data row and id 1 in the last. -/
theorem fetch_reverse_order_witness :
    (((fetchProducts ⟨"u", "k"⟩
        ⟨200, "",
         some (some [{ id := some "1" }, { id := some "2" }, { id := some "3" }])⟩
        ⟨[], none⟩).2.grid.drop 1).take 3 =
      [({ id := some "3" } : Product), { id := some "2" }, { id := some "1" }].map
        productRowData) := by
  have h := fetch_reverse_order ⟨"u", "k"⟩
    ⟨200, "",
     some (some [{ id := some "1" }, { id := some "2" }, { id := some "3" }])⟩
    ⟨[], none⟩ [{ id := some "1" }, { id := some "2" }, { id := some "3" }]
    rfl rfl rfl
  exact h.2.2

/-- C4 counterexample: with an empty selection the push wrapper throws to
its caller (modelled by the `Except.error` result) — `updateSelectedProducts`
has no `try/catch`, so this validation failure is NOT converted into a
`{success: false, message}` value. -/
theorem updateSelectedProducts_empty_raises :
    updateSelectedProducts ⟨"u", "k"⟩ 1 1 ⟨200, "", none⟩ ⟨200, "", none⟩
      ⟨[["Product ID"]], none⟩ =
      .error "Please select at least one product row to update." := rfl

/-- C4 (amended): every failure inside the `try` bodies of `fetchProducts`
and `updateProductsToWordPress` is caught and converted into a
`{success: false, message}` result, and a successful body yields
`{success: true}`; but the empty-row-set validation failures of the
wrappers `updateSelectedProducts` and `updateAllProducts` are raised to
the caller, not converted. -/
theorem error_propagation (cfg : Config) (resp : FetchResponse)
    (presp : PushResponse) (refetch : FetchResponse) (rows : Grid)
    (dels : List String) (s : DocState) :
    (∀ e s2, fetchProductsRun cfg resp s = (.error e, s2) →
      fetchProducts cfg resp s =
        ({ success := false, message := e, count := none }, s2)) ∧
    (∀ n s2, fetchProductsRun cfg resp s = (.ok n, s2) →
      (fetchProducts cfg resp s).1.success = true) ∧
    (∀ e s2, updateProductsToWordPressRun cfg rows dels presp refetch s =
        (.error e, s2) →
      updateProductsToWordPress cfg rows dels presp refetch s =
        ({ success := false, message := e, updatedCount := none,
           deletedCount := none }, s2)) ∧
    (∀ startRow lastRow, getSelectedProductRows startRow lastRow s.grid = [] →
      updateSelectedProducts cfg startRow lastRow presp refetch s =
        .error "Please select at least one product row to update.") ∧
    (getAllProductRows s.grid = [] →
      updateAllProducts cfg presp refetch s =
        .error "No products found in the sheet. Please fetch products first.") := by
  refine ⟨?_, ?_, ?_, ?_, ?_⟩
  · intro e s2 h
    unfold fetchProducts
    rw [h]
  · intro n s2 h
    unfold fetchProducts
    rw [h]
  · intro e s2 h
    unfold updateProductsToWordPress
    rw [h]
  · intro startRow lastRow h
    unfold updateSelectedProducts
    rw [h]
    rfl
  · intro h
    unfold updateAllProducts
    rw [h]
    rfl

/-- Witness for the amended C4: an unconfigured fetch body error becomes a
failure value; an empty selection raises. -/
theorem error_propagation_witness :
    fetchProducts ⟨"", ""⟩ ⟨200, "", none⟩ ⟨[], none⟩ =
      ({ success := false,
         message := "Please configure the WordPress API URL and secret key first in Settings.",
         count := none }, ⟨[], none⟩) ∧
    updateSelectedProducts ⟨"u", "k"⟩ 1 1 ⟨200, "", none⟩ ⟨200, "", none⟩
      ⟨[], none⟩ =
      .error "Please select at least one product row to update." :=
  ⟨(error_propagation ⟨"", ""⟩ ⟨200, "", none⟩ ⟨200, "", none⟩ ⟨200, "", none⟩
      [] [] ⟨[], none⟩).1 _ _ rfl,
   (error_propagation ⟨"u", "k"⟩ ⟨200, "", none⟩ ⟨200, "", none⟩ ⟨200, "", none⟩
      [] [] ⟨[], none⟩).2.2.2.1 1 1 rfl⟩

/-- C8 counterexample: a push with an HTTP 200 response whose JSON body
has no `data` field does not return zero counts — reading `data.updated`
throws a TypeError, which the catch converts into a failure result. -/
theorem push_missing_data_fails :
    (updateProductsToWordPress ⟨"u", "k"⟩ [["1"]] [] ⟨200, "", some {}⟩
      ⟨500, "boom", none⟩ ⟨[], none⟩).1 =
      { success := false,
        message := "TypeError: Cannot read properties of undefined",
        updatedCount := none, deletedCount := none } := rfl

/-- C8 (amended): on a 200 response whose body parses to JSON with a
`data` field present, the push returns `{success, message, updatedCount,
deletedCount}` with counts the lengths of `data.updated` / `data.deleted`
when present and zero when absent; when the `data` field itself is absent
the push instead fails with the caught TypeError. -/
theorem push_result_shape (cfg : Config) (rows : Grid) (dels : List String)
    (resp : PushResponse) (refetch : FetchResponse) (s : DocState)
    (hconf : cfg.isConfigured = true) (hcode : resp.code = 200) :
    (∀ pr d, resp.body = some pr → pr.data = some d →
      (updateProductsToWordPress cfg rows dels resp refetch s).1 =
        { success := true,
          message := msgOr pr.message "Products updated successfully",
          updatedCount := some (lengthOrZero d.updated),
          deletedCount := some (lengthOrZero d.deleted) }) ∧
    (∀ pr, resp.body = some pr → pr.data = none →
      (updateProductsToWordPress cfg rows dels resp refetch s).1 =
        { success := false,
          message := "TypeError: Cannot read properties of undefined",
          updatedCount := none, deletedCount := none }) := by
  have hsk : ¬ cfg.secretKey = "" := by
    have := hconf
    unfold Config.isConfigured at this
    simp only [Bool.and_eq_true, decide_eq_true_eq] at this
    exact this.2
  constructor
  · intro pr d hpr hd
    unfold updateProductsToWordPress updateProductsToWordPressRun
    rw [if_neg (by simp [hconf]), if_neg hsk, if_neg (by simp [hcode])]
    simp only [hpr, hd]
  · intro pr hpr hd
    unfold updateProductsToWordPress updateProductsToWordPressRun
    rw [if_neg (by simp [hconf]), if_neg hsk, if_neg (by simp [hcode])]
    simp only [hpr, hd]

/-- Witness for the amended C8: a 200 response with `data.updated` of two
entries and `deleted` absent yields success with counts 2 and 0; a 200
response without a `data` field fails. -/
theorem push_result_shape_witness :
    (updateProductsToWordPress ⟨"u", "k"⟩ [["1"]] []
      ⟨200, "", some { message := some "ok",
                       data := some { updated := some ["1", "2"] } }⟩
      ⟨500, "boom", none⟩ ⟨[], none⟩).1 =
      { success := true, message := "ok", updatedCount := some 2,
        deletedCount := some 0 } ∧
    (updateProductsToWordPress ⟨"u", "k"⟩ [["1"]] [] ⟨200, "", some {}⟩
      ⟨500, "boom", none⟩ ⟨[], none⟩).1 =
      { success := false,
        message := "TypeError: Cannot read properties of undefined",
        updatedCount := none, deletedCount := none } :=
  ⟨(push_result_shape ⟨"u", "k"⟩ [["1"]] []
      ⟨200, "", some { message := some "ok",
                       data := some { updated := some ["1", "2"] } }⟩
      ⟨500, "boom", none⟩ ⟨[], none⟩ rfl rfl).1
      { message := some "ok", data := some { updated := some ["1", "2"] } }
      { updated := some ["1", "2"] } rfl rfl,
   (push_result_shape ⟨"u", "k"⟩ [["1"]] [] ⟨200, "", some {}⟩
      ⟨500, "boom", none⟩ ⟨[], none⟩ rfl rfl).2 {} rfl rfl⟩

end SheetAddon
